import Mathlib

/-!
Shallow embedding of the firecracker hypervisor driver
(src/virtcontainers/fc.go) and verification of the specification claims
about it.

External effects (control-channel RPC calls, signals, the persistence
store, process spawning, sleeps) are modelled by explicit environments:
each fallible external call is given its outcome by an environment field,
and every modelled function returns, besides its result, the ordered list
of external calls or events it performed.  Time is modelled discretely and
favourably to the code: each sleep advances the clock by exactly its
duration and external calls are instantaneous.
-/

deriving instance DecidableEq for Except

namespace virtcontainers

/-- Readiness states of the VMM, from the vmmState enum in fc.go. -/
inductive vmmState
  | notReady
  | apiReady
  | vmReady
deriving DecidableEq, Repr

/-- Instance states reported by the control API
(models.InstanceInfoState values). -/
inductive InstanceState
  | uninitialized
  | starting
  | running
  | halting
  | halted
deriving DecidableEq, Repr

/-- Error kinds surfaced by the modelled functions. -/
inductive FcErr
  | spawnErr
  | transportErr
  | timeoutErr (timeout : Int)
  | invalidTimeout (timeout : Int)
  | storeErr
  | termErr
  | killErr
  | unsupportedDevice
deriving DecidableEq, Repr

/-- fcTimeout constant: maximum seconds to wait for the VMM to respond. -/
def fcTimeout : Int := 10

/-- fcStopSandboxTimeout constant: grace period in seconds used by fcEnd. -/
def fcStopSandboxTimeout : Nat := 15

/-- fcDiskPoolSize constant: number of placeholder drives attached before
the guest starts. -/
def fcDiskPoolSize : Nat := 8

/-- A kernel parameter, as the Param type used by fc.go. -/
structure Param where
  key : String
  value : String
deriving DecidableEq, Repr

/-- Modelled from the spec: SerializeParams is defined outside this file;
per the spec each parameter is rendered as key=value using the given
separator. -/
def SerializeParams (params : List Param) (sep : String) : List String :=
  params.map (fun p => p.key ++ sep ++ p.value)

/-- Modelled from the spec: commonVirtioblkKernelRootParams is defined
outside this file; per the spec the command line root parameter designates
a partition inside the rootfs block device (first partition of the first
block device). -/
def commonVirtioblkKernelRootParams : List Param :=
  [⟨"root", "/dev/vda1"⟩]

/-- The fixed firecracker kernel parameters, from the fcKernelParams
variable in fc.go: the common virtio-blk root parameters followed by the
eight literal backend parameters. -/
def fcKernelParams : List Param :=
  commonVirtioblkKernelRootParams ++
    [⟨"pci", "off"⟩,
     ⟨"reboot", "k"⟩,
     ⟨"panic", "1"⟩,
     ⟨"iommu", "off"⟩,
     ⟨"8250.nr_uarts", "0"⟩,
     ⟨"net.ifnames", "0"⟩,
     ⟨"random.trust_cpu", "on"⟩,
     ⟨"acpi", "off"⟩]

/-- The kernel command line assembled by startSandbox: caller parameters
appended with fcKernelParams, serialized with separator = and joined by
single spaces (fc.go lines 436-438). -/
def assembledKernelCmdline (callerParams : List Param) : String :=
  String.intercalate " " (SerializeParams (callerParams ++ fcKernelParams) "=")

/-- Control-channel calls issued by the driver, one constructor per
operation of the firecracker client used in fc.go. -/
inductive ChanCall
  | describeInstance
  | putMachineConfiguration (mem : Int) (vcpus : Int) (ht : Bool)
  | putGuestBootSource (kernelPath : String) (bootArgs : String)
  | putGuestDriveByID (driveID : String) (isReadOnly : Bool)
      (isRootDevice : Bool) (pathOnHost : String)
  | patchGuestDriveByID (driveID : String) (pathOnHost : String)
  | putGuestNetworkInterfaceByID (ifaceID : String) (hostDevName : String)
      (guestMac : String) (allowMmds : Bool)
  | putGuestVsockByID (id : String) (guestCid : Int)
  | createSyncAction (actionType : String) (payload : String)
deriving DecidableEq, Repr

/-- config.BlockDrive, restricted to the fields fc.go reads. -/
structure BlockDrive where
  ID : String
  File : String
  Index : Int
deriving DecidableEq, Repr

/-- fcDriveIndexToID from fc.go: deterministic id of the disk-pool slot
for a given pool index. -/
def fcDriveIndexToID (i : Int) : String :=
  "drive_" ++ toString i

/-- vmRunning from fc.go, as a function of the observed DescribeInstance
answer (none models a failed call): only a Running answer counts as
running; Starting, Uninitialized, Halting, Halted and errors do not. -/
def vmRunning (observed : Option InstanceState) : Bool :=
  match observed with
  | none => false
  | some InstanceState.starting => false
  | some InstanceState.running => true
  | some InstanceState.uninitialized => false
  | some InstanceState.halting => false
  | some InstanceState.halted => false

/-- Environment for fcUpdateBlockDrive: outcome of the patch call, the
answer the DescribeInstance call inside vmRunning would give, and the
outcome of the rescan action call. -/
structure UpdateEnv where
  patchOk : Bool
  observed : Option InstanceState
  rescanOk : Bool
deriving DecidableEq, Repr

/-- Result of a modelled driver operation: the final result together with
the ordered control-channel calls it made. -/
structure CallOutcome where
  result : Except FcErr Unit
  calls : List ChanCall

/-- fcUpdateBlockDrive from fc.go: patch the preallocated slot
drive_<Index> to the new backing file; if the patch succeeds, consult
vmRunning (a DescribeInstance call) and, only when the VM is observed
running, issue a BlockDeviceRescan action carrying the slot id. -/
def fcUpdateBlockDrive (drive : BlockDrive) (env : UpdateEnv) : CallOutcome :=
  let driveID := fcDriveIndexToID drive.Index
  let patchCall := ChanCall.patchGuestDriveByID driveID drive.File
  if env.patchOk = false then
    ⟨Except.error FcErr.transportErr, [patchCall]⟩
  else if vmRunning env.observed then
    if env.rescanOk then
      ⟨Except.ok (), [patchCall, ChanCall.describeInstance,
        ChanCall.createSyncAction "BlockDeviceRescan" driveID]⟩
    else
      ⟨Except.error FcErr.transportErr, [patchCall, ChanCall.describeInstance,
        ChanCall.createSyncAction "BlockDeviceRescan" driveID]⟩
  else
    ⟨Except.ok (), [patchCall, ChanCall.describeInstance]⟩

/-- The deviceType tags relevant to fc.go (the full enum is defined
elsewhere in the repository; the source switch only distinguishes blockDev
from everything else). -/
inductive deviceType
  | blockDev
  | netDev
  | vsockDev
  | memoryDev
deriving DecidableEq, Repr

/-- hotplugAddDevice from fc.go: blockDev devices go through
fcUpdateBlockDrive with no bounds check on the pool index; every other
device type yields an unsupported-device error without any call. -/
def hotplugAddDevice (drive : BlockDrive) (devType : deviceType)
    (env : UpdateEnv) : CallOutcome :=
  match devType with
  | deviceType.blockDev => fcUpdateBlockDrive drive env
  | _ => ⟨Except.error FcErr.unsupportedDevice, []⟩

/-- hotplugRemoveDevice from fc.go: unconditional no-op success. -/
def hotplugRemoveDevice (_drive : BlockDrive) (_devType : deviceType) :
    CallOutcome :=
  ⟨Except.ok (), []⟩

/-- The device descriptors fc.go dispatches on: network endpoints, block
drives and vsocks, plus a tag for any unrecognized descriptor. -/
inductive DeviceInfo
  | endpoint (name : String) (hardwareAddr : String) (tapName : String)
  | blockDrive (d : BlockDrive)
  | vsock (contextID : Int)
  | unknown
deriving DecidableEq, Repr

/-- Mutable driver state relevant to device handling: the readiness state
and the pending device queue. -/
structure FcState where
  state : vmmState
  pendingDevices : List (DeviceInfo × deviceType)
deriving DecidableEq, Repr

/-- pauseSandbox from fc.go: returns nil doing nothing. -/
def pauseSandbox (st : FcState) : FcState × List ChanCall × Except FcErr Unit :=
  (st, [], Except.ok ())

/-- saveSandbox from fc.go: returns nil doing nothing. -/
def saveSandbox (st : FcState) : FcState × List ChanCall × Except FcErr Unit :=
  (st, [], Except.ok ())

/-- resumeSandbox from fc.go: returns nil doing nothing. -/
def resumeSandbox (st : FcState) : FcState × List ChanCall × Except FcErr Unit :=
  (st, [], Except.ok ())

/-- Outcome of waitVMM: the result, the elapsed wall-clock milliseconds at
return, and the number of DescribeInstance polls made. -/
structure WaitOutcome where
  result : Except FcErr Unit
  elapsedMs : Nat
  polls : Nat
deriving DecidableEq, Repr

/-- The polling loop of waitVMM from fc.go.  The environment describeOk
gives the outcome of the n-th DescribeInstance poll; poll n happens at
elapsed time 10 * n ms (each sleep adds exactly 10 ms, calls are
instantaneous).  The Go exit test converts the elapsed seconds to int
(truncation, modelled by Nat division of the milliseconds by 1000) and
compares it strictly against the timeout.  Structural recursion on a fuel
argument; the caller supplies fuel exceeding the bounded iteration count,
so the none case is unreachable there. -/
def waitVMMLoop (describeOk : Nat → Bool) (timeout : Int) :
    Nat → Nat → Option WaitOutcome
  | 0, _ => none
  | fuel + 1, n =>
    if describeOk n then
      some ⟨Except.ok (), 10 * n, n + 1⟩
    else if ((10 * n / 1000 : Nat) : Int) > timeout then
      some ⟨Except.error (FcErr.timeoutErr timeout), 10 * n, n + 1⟩
    else
      waitVMMLoop describeOk timeout fuel (n + 1)

/-- waitVMM from fc.go: a negative timeout is rejected before any poll;
otherwise the DescribeInstance poll loop runs with a 10 ms sleep between
polls until a poll succeeds or the truncated elapsed seconds exceed the
timeout. -/
def waitVMM (describeOk : Nat → Bool) (timeout : Int) : Option WaitOutcome :=
  if timeout < 0 then
    some ⟨Except.error (FcErr.invalidTimeout timeout), 0, 0⟩
  else
    waitVMMLoop describeOk timeout (100 * (timeout.toNat + 1) + 2) 0

/-- Signal-level events of fcEnd: a zero-signal liveness probe, the
graceful SIGTERM, the forced SIGKILL. -/
inductive SigEvent
  | probe
  | sigterm
  | sigkill
deriving DecidableEq, Repr

/-- The wait loop of fcEnd from fc.go.  alive gives the result of the k-th
liveness probe of the whole call (probe 0 is the initial one made before
SIGTERM, so loop iteration j probes alive (j+1)); iteration j runs at
elapsed 50 * j ms after SIGTERM.  If a probe finds the process dead the
call returns nil at once, without SIGKILL; when the elapsed time reaches
the 15 s grace period the loop breaks and SIGKILL is sent, the call
result being exactly the kill-send result.  Returns the result together
with the signal events from the loop onward. -/
def fcEndLoop (alive : Nat → Bool) (killOk : Bool) :
    Nat → Nat → Option (Except FcErr Unit × List SigEvent)
  | _, 0 => none
  | j, fuel + 1 =>
    if alive (j + 1) = false then
      some (Except.ok (), [SigEvent.probe])
    else if 1000 * fcStopSandboxTimeout ≤ 50 * j then
      some ((if killOk then Except.ok () else Except.error FcErr.killErr),
        [SigEvent.probe, SigEvent.sigkill])
    else
      match fcEndLoop alive killOk (j + 1) fuel with
      | none => none
      | some (r, tr) => some (r, SigEvent.probe :: tr)

/-- fcEnd from fc.go: probe liveness; if already dead return nil with no
further signal; otherwise send SIGTERM (propagating its failure), then run
the 50 ms poll loop bounded by fcStopSandboxTimeout and finish as
described in fcEndLoop.  The fuel 302 exceeds the 301 possible loop
iterations (j = 0..300). -/
def fcEnd (alive : Nat → Bool) (termOk : Bool) (killOk : Bool) :
    Option (Except FcErr Unit × List SigEvent) :=
  if alive 0 = false then
    some (Except.ok (), [SigEvent.probe])
  else if termOk = false then
    some (Except.error FcErr.termErr, [SigEvent.probe, SigEvent.sigterm])
  else
    match fcEndLoop alive killOk 0 302 with
    | none => none
    | some (r, tr) => some (r, SigEvent.probe :: SigEvent.sigterm :: tr)

/-- The control-channel calls a dispatched device descriptor produces, per
the addDevice switch in fc.go: endpoints become a network-interface put
keyed by the endpoint name with management requests disabled, block drives
become a writable non-root drive put keyed by the drive id, vsocks become
a vsock put with fixed id root, and unrecognized descriptors produce no
call. -/
def dispatchCalls (dev : DeviceInfo) : List ChanCall :=
  match dev with
  | DeviceInfo.endpoint name mac tap =>
      [ChanCall.putGuestNetworkInterfaceByID name tap mac false]
  | DeviceInfo.blockDrive d =>
      [ChanCall.putGuestDriveByID d.ID false false d.File]
  | DeviceInfo.vsock cid =>
      [ChanCall.putGuestVsockByID "root" cid]
  | DeviceInfo.unknown => []

/-- addDevice from fc.go: while the readiness state is notReady the device
is appended to the pending queue and the call succeeds with no
control-channel call; otherwise the descriptor is dispatched by variant
(chanOk gives the outcome of the dispatch call), an unrecognized
descriptor being logged and ignored with success. -/
def addDevice (st : FcState) (dev : DeviceInfo) (devType : deviceType)
    (chanOk : Bool) : FcState × List ChanCall × Except FcErr Unit :=
  if st.state = vmmState.notReady then
    ({ st with pendingDevices := st.pendingDevices ++ [(dev, devType)] },
      [], Except.ok ())
  else
    match dev with
    | DeviceInfo.unknown => (st, [], Except.ok ())
    | _ =>
        (st, dispatchCalls dev,
          if chanOk then Except.ok () else Except.error FcErr.transportErr)

/-- The pending-device flush loop of startSandbox (fc.go lines 457-461):
addDevice is called on each queued entry in order, the i-th dispatch
outcome given by chanOk i, stopping at the first failure. -/
def flushPending (st : FcState) (devs : List (DeviceInfo × deviceType))
    (chanOk : Nat → Bool) (i : Nat) :
    FcState × List ChanCall × Except FcErr Unit :=
  match devs with
  | [] => (st, [], Except.ok ())
  | (dev, dt) :: rest =>
    let out := addDevice st dev dt (chanOk i)
    match out.2.2 with
    | Except.error e => (out.1, out.2.1, Except.error e)
    | Except.ok () =>
        let outRest := flushPending out.1 rest chanOk (i + 1)
        (outRest.1, out.2.1 ++ outRest.2.1, outRest.2.2)

/-- FirecrackerInfo from fc.go: the information persisted on disk. -/
structure FirecrackerInfo where
  PID : Int
deriving DecidableEq, Repr

/-- Events of fcInit, in the order fc.go performs them: process spawn,
recording the PID in the in-memory info field, the start and end of the
bounded waitVMM, and the write of the info to the external store. -/
inductive InitEvent
  | spawn
  | recordPIDInMemory (pid : Int)
  | waitVMMStart
  | waitVMMDone (ok : Bool)
  | storeStore (pid : Int)
deriving DecidableEq, Repr

/-- Environment for fcInit: whether the spawn succeeds and the PID it
yields, whether the bounded waitVMM succeeds, and whether the store write
succeeds. -/
structure InitEnv where
  spawnOk : Bool
  pid : Int
  waitOk : Bool
  storeOk : Bool
deriving DecidableEq, Repr

/-- Outcome of fcInit: result, ordered events, the in-memory info and the
readiness state at return. -/
structure InitOutcome where
  result : Except FcErr Unit
  events : List InitEvent
  info : FirecrackerInfo
  state : vmmState
deriving DecidableEq, Repr

/-- fcInit from fc.go: spawn the firecracker process (failure propagates),
record its PID in the in-memory info immediately, run the bounded waitVMM
(failure propagates, with no store write), then set the readiness state to
apiReady and finally write the info to the external store, the store-write
result being the result of the call. -/
def fcInit (env : InitEnv) (timeout : Int) (info₀ : FirecrackerInfo)
    (st₀ : vmmState) : InitOutcome :=
  if env.spawnOk = false then
    ⟨Except.error FcErr.spawnErr, [InitEvent.spawn], info₀, st₀⟩
  else if env.waitOk = false then
    ⟨Except.error (FcErr.timeoutErr timeout),
      [InitEvent.spawn, InitEvent.recordPIDInMemory env.pid,
       InitEvent.waitVMMStart, InitEvent.waitVMMDone false],
      ⟨env.pid⟩, st₀⟩
  else
    ⟨(if env.storeOk then Except.ok () else Except.error FcErr.storeErr),
      [InitEvent.spawn, InitEvent.recordPIDInMemory env.pid,
       InitEvent.waitVMMStart, InitEvent.waitVMMDone true,
       InitEvent.storeStore env.pid],
      ⟨env.pid⟩, vmmState.apiReady⟩

/-- Environment for createDiskPool: the backing path produced by the i-th
scratch-file allocation (the store Raw call followed by the URL parse,
both external collaborators; an error aborts the pool), and the outcome of
the i-th drive put. -/
structure DiskPoolEnv where
  rawResults : Nat → Except Unit String
  putDriveOk : Nat → Bool

/-- The loop of createDiskPool from fc.go, iterating pool indexes i,
i+1, ... for the given remaining count: allocate a scratch backing file,
then declare the placeholder drive drive_<i> as writable (not read-only)
and non-root; the first failing allocation or put aborts the pool with its
error. -/
def createDiskPoolLoop (env : DiskPoolEnv) (i : Nat) :
    Nat → List ChanCall × Except FcErr Unit
  | 0 => ([], Except.ok ())
  | n + 1 =>
    match env.rawResults i with
    | Except.error _ => ([], Except.error FcErr.storeErr)
    | Except.ok path =>
      let call := ChanCall.putGuestDriveByID (fcDriveIndexToID i) false false path
      if env.putDriveOk i then
        let out := createDiskPoolLoop env (i + 1) n
        (call :: out.1, out.2)
      else
        ([call], Except.error FcErr.transportErr)

/-- createDiskPool from fc.go: declare the fcDiskPoolSize placeholder
drives for pool indexes 0 through 7. -/
def createDiskPool (env : DiskPoolEnv) : List ChanCall × Except FcErr Unit :=
  createDiskPoolLoop env 0 fcDiskPoolSize

/-- The steps of startSandbox, in source order, plus the deferred fcEnd
cleanup when it runs. -/
inductive Step
  | fcInitStep
  | setVMBaseConfig
  | kernelAssetPath
  | setBootSource
  | initrdAssetPath
  | imageAssetPath
  | setVMRootfs
  | createDiskPoolStep
  | flushDevice (i : Nat)
  | startVM
  | finalWait
  | fcEndCleanup
deriving DecidableEq, Repr

/-- Error identifying which startSandbox step failed. -/
inductive StartErr
  | initErr
  | baseCfgErr
  | kernelPathErr
  | initrdErr
  | imageErr
  | deviceErr (i : Nat)
  | startVMErr
  | waitErr
deriving DecidableEq, Repr

/-- Environment for startSandbox, one field per fallible step, in source
order.  initrdResult models InitrdAssetPath: an error, or a path (the
empty path triggers the ImageAssetPath fallback).  Each entry of deviceOks
abstracts the dispatch outcome of one pending device, in queue order. -/
structure StartEnv where
  initOk : Bool
  baseCfgOk : Bool
  kernelPathOk : Bool
  bootSourceOk : Bool
  initrdResult : Except Unit String
  imageOk : Bool
  rootfsOk : Bool
  diskPoolOk : Bool
  deviceOks : List Bool
  startVMOk : Bool
  finalWaitOk : Bool
deriving DecidableEq, Repr

/-- Outcome of startSandbox: the result, whether the deferred fcEnd
cleanup executed, and the ordered steps performed. -/
structure StartOutcome where
  result : Except StartErr Unit
  cleanupRan : Bool
  steps : List Step
deriving DecidableEq, Repr

/-- The flush loop of startSandbox at the step level: the performed
flushDevice steps and the index of the first failing dispatch, if any. -/
def flushSteps (i : Nat) (oks : List Bool) : List Step × Option Nat :=
  match oks with
  | [] => ([], none)
  | ok :: rest =>
    if ok then
      let out := flushSteps (i + 1) rest
      (Step.flushDevice i :: out.1, out.2)
    else
      ([Step.flushDevice i], some i)

/-- The part of startSandbox after the rootfs image path has been
resolved (fc.go from line 454): fcSetVMRootfs and createDiskPool are
called with their results discarded, then the pending queue is flushed
(the first failing dispatch assigns the outer err, so its failure runs the
deferred fcEnd cleanup), then fcStartVM (whose failure path shadows err,
so no cleanup) and the final bounded waitVMM (returned directly, so no
cleanup either).  steps₂ are the steps already performed. -/
def startSandboxTail (steps₂ : List Step) (env : StartEnv) : StartOutcome :=
  let steps₃ := steps₂ ++ [Step.setVMRootfs, Step.createDiskPoolStep]
  let flushed := flushSteps 0 env.deviceOks
  match flushed.2 with
  | some i =>
    ⟨Except.error (StartErr.deviceErr i), true,
      steps₃ ++ flushed.1 ++ [Step.fcEndCleanup]⟩
  | none =>
    let steps₄ := steps₃ ++ flushed.1
    if env.startVMOk = false then
      ⟨Except.error StartErr.startVMErr, false, steps₄ ++ [Step.startVM]⟩
    else if env.finalWaitOk = false then
      ⟨Except.error StartErr.waitErr, false,
        steps₄ ++ [Step.startVM, Step.finalWait]⟩
    else
      ⟨Except.ok (), false, steps₄ ++ [Step.startVM, Step.finalWait]⟩

/-- startSandbox from fc.go, with the control flow the Go code actually
has.  The deferred fcEnd cleanup is registered only after the fcInit
check, and its condition reads the outer err variable; the failure paths
of fcSetVMBaseConfig and fcStartVM shadow err inside the if statement, and
the final waitVMM result is returned directly, so none of those three
paths (nor a fcInit failure) runs the cleanup — only failures of the
kernel, initrd and image asset lookups and of the pending-device flush do.
The results of fcSetBootSource, fcSetVMRootfs and createDiskPool are
discarded: the corresponding environment fields bootSourceOk, rootfsOk and
diskPoolOk do not influence the outcome. -/
def startSandbox (env : StartEnv) : StartOutcome :=
  if env.initOk = false then
    ⟨Except.error StartErr.initErr, false, [Step.fcInitStep]⟩
  else if env.baseCfgOk = false then
    ⟨Except.error StartErr.baseCfgErr, false,
      [Step.fcInitStep, Step.setVMBaseConfig]⟩
  else if env.kernelPathOk = false then
    ⟨Except.error StartErr.kernelPathErr, true,
      [Step.fcInitStep, Step.setVMBaseConfig, Step.kernelAssetPath,
       Step.fcEndCleanup]⟩
  else
    let pre := [Step.fcInitStep, Step.setVMBaseConfig, Step.kernelAssetPath,
      Step.setBootSource]
    match env.initrdResult with
    | Except.error _ =>
      ⟨Except.error StartErr.initrdErr, true,
        pre ++ [Step.initrdAssetPath, Step.fcEndCleanup]⟩
    | Except.ok img =>
      if img = "" then
        if env.imageOk = false then
          ⟨Except.error StartErr.imageErr, true,
            pre ++ [Step.initrdAssetPath, Step.imageAssetPath,
              Step.fcEndCleanup]⟩
        else
          startSandboxTail
            (pre ++ [Step.initrdAssetPath, Step.imageAssetPath]) env
      else
        startSandboxTail (pre ++ [Step.initrdAssetPath]) env

/-- C8: the assembled kernel command line consists of the caller
parameters first, then all fixed backend parameters, each rendered as
key=value and joined by single spaces, preserving that relative order; a
concrete instance is evaluated as an anchor. -/
theorem assembledKernelCmdline_caller_then_backend :
    ∀ callerParams : List Param,
      assembledKernelCmdline callerParams =
        String.intercalate " "
          (callerParams.map (fun p => p.key ++ "=" ++ p.value) ++
            fcKernelParams.map (fun p => p.key ++ "=" ++ p.value))
      ∧ assembledKernelCmdline [⟨"foo", "bar"⟩] =
          "foo=bar root=/dev/vda1 pci=off reboot=k panic=1 iommu=off 8250.nr_uarts=0 net.ifnames=0 random.trust_cpu=on acpi=off" := by
  intro callerParams
  constructor
  · simp [assembledKernelCmdline, SerializeParams]
  · rfl

/-- C10: pauseSandbox, resumeSandbox and saveSandbox return success for
every driver state, make no control-channel call and leave the state
unchanged. -/
theorem pause_resume_save_noop :
    ∀ st : FcState,
      pauseSandbox st = (st, [], Except.ok ()) ∧
      resumeSandbox st = (st, [], Except.ok ()) ∧
      saveSandbox st = (st, [], Except.ok ()) :=
  fun _ => ⟨rfl, rfl, rfl⟩

/-- C2 counterexample: in the execution where the spawn succeeds (PID 42)
and the bounded waitVMM fails, fcInit returns the wait error and no
store-write event occurred — the external store does not hold the PID,
contradicting the claim that the PID is written to the store before the
wait begins. -/
theorem fcInit_wait_failure_counterexample :
    fcInit ⟨true, 42, false, true⟩ fcTimeout ⟨0⟩ vmmState.notReady =
      ⟨Except.error (FcErr.timeoutErr fcTimeout),
        [InitEvent.spawn, InitEvent.recordPIDInMemory 42,
         InitEvent.waitVMMStart, InitEvent.waitVMMDone false],
        ⟨42⟩, vmmState.notReady⟩
    ∧ InitEvent.storeStore 42 ∉
        [InitEvent.spawn, InitEvent.recordPIDInMemory 42,
         InitEvent.waitVMMStart, InitEvent.waitVMMDone false] :=
  ⟨rfl, by decide⟩

/-- C2 amended: fcInit records the PID in the in-memory info before the
bounded wait begins, but the write to the external store happens only
after the wait succeeds; when the wait fails the call returns the error
and no store write occurs, and in every execution a store-write event
implies the wait succeeded. -/
theorem fcInit_store_only_after_wait :
    ∀ (env : InitEnv) (timeout : Int) (info₀ : FirecrackerInfo)
      (st₀ : vmmState), env.spawnOk = true →
      (env.waitOk = false →
        fcInit env timeout info₀ st₀ =
          ⟨Except.error (FcErr.timeoutErr timeout),
            [InitEvent.spawn, InitEvent.recordPIDInMemory env.pid,
             InitEvent.waitVMMStart, InitEvent.waitVMMDone false],
            ⟨env.pid⟩, st₀⟩)
      ∧ (env.waitOk = true →
        fcInit env timeout info₀ st₀ =
          ⟨(if env.storeOk then Except.ok ()
            else Except.error FcErr.storeErr),
            [InitEvent.spawn, InitEvent.recordPIDInMemory env.pid,
             InitEvent.waitVMMStart, InitEvent.waitVMMDone true,
             InitEvent.storeStore env.pid],
            ⟨env.pid⟩, vmmState.apiReady⟩)
      ∧ (∀ p, InitEvent.storeStore p ∈ (fcInit env timeout info₀ st₀).events →
          env.waitOk = true) := by
  intro env timeout info₀ st₀ hs
  refine ⟨fun hw => ?_, fun hw => ?_, fun p hp => ?_⟩
  · simp [fcInit, hs, hw]
  · simp [fcInit, hs, hw]
  · by_contra hw
    rw [Bool.not_eq_true] at hw
    simp [fcInit, hs, hw] at hp

/-- Witness for fcInit_store_only_after_wait at a concrete environment in
which the spawn and the wait succeed with PID 7. -/
theorem fcInit_store_only_after_wait_witness :
    fcInit ⟨true, 7, true, true⟩ fcTimeout ⟨0⟩ vmmState.notReady =
      ⟨Except.ok (),
        [InitEvent.spawn, InitEvent.recordPIDInMemory 7,
         InitEvent.waitVMMStart, InitEvent.waitVMMDone true,
         InitEvent.storeStore 7],
        ⟨7⟩, vmmState.apiReady⟩ := by
  have h :=
    (fcInit_store_only_after_wait ⟨true, 7, true, true⟩ fcTimeout ⟨0⟩
      vmmState.notReady rfl).2.1 rfl
  simpa using h

/-- C3 counterexample: hotplug add of a BlockDrive whose pool index is 8,
at or beyond the preallocated disk-pool size, surfaces no error at all:
the driver patches the (nonexistent) slot drive_8 and returns success
rather than an unsupported-device error. -/
theorem hotplugAddDevice_index8_counterexample :
    hotplugAddDevice ⟨"vol8", "/tmp/scratch8", 8⟩ deviceType.blockDev
      ⟨true, none, true⟩ =
      ⟨Except.ok (),
        [ChanCall.patchGuestDriveByID "drive_8" "/tmp/scratch8",
         ChanCall.describeInstance]⟩
    ∧ (hotplugAddDevice ⟨"vol8", "/tmp/scratch8", 8⟩ deviceType.blockDev
        ⟨true, none, true⟩).result ≠
        Except.error FcErr.unsupportedDevice := by
  refine ⟨rfl, ?_⟩
  intro h
  exact Except.noConfusion h

/-- C3 amended: hotplugAddDevice performs no bounds check on the pool
index — for every BlockDrive, including indexes at or beyond the pool
size, the blockDev path proceeds to patch slot drive_<Index> and never
yields the unsupported-device error; that error is surfaced exactly for
the non-blockDev device types, without any control-channel call. -/
theorem hotplugAddDevice_no_bounds_check :
    (∀ (d : BlockDrive) (env : UpdateEnv),
      (hotplugAddDevice d deviceType.blockDev env).result ≠
        Except.error FcErr.unsupportedDevice
      ∧ (hotplugAddDevice d deviceType.blockDev env).calls.head? =
        some (ChanCall.patchGuestDriveByID (fcDriveIndexToID d.Index) d.File))
    ∧ (∀ (d : BlockDrive) (t : deviceType) (env : UpdateEnv),
        t ≠ deviceType.blockDev →
          hotplugAddDevice d t env =
            ⟨Except.error FcErr.unsupportedDevice, []⟩) := by
  constructor
  · intro d env
    obtain ⟨p, obs, r⟩ := env
    rcases obs with _ | s
    · cases p <;> cases r <;> constructor <;>
        simp [hotplugAddDevice, fcUpdateBlockDrive, vmRunning]
    · cases s <;> cases p <;> cases r <;> constructor <;>
        simp [hotplugAddDevice, fcUpdateBlockDrive, vmRunning]
  · intro d t env ht
    cases t
    · exact absurd rfl ht
    · rfl
    · rfl
    · rfl

/-- Witness for hotplugAddDevice_no_bounds_check at the concrete
non-block device type netDev. -/
theorem hotplugAddDevice_no_bounds_check_witness :
    hotplugAddDevice ⟨"v", "/f", 0⟩ deviceType.netDev ⟨true, none, true⟩ =
      ⟨Except.error FcErr.unsupportedDevice, []⟩ :=
  hotplugAddDevice_no_bounds_check.2 ⟨"v", "/f", 0⟩ deviceType.netDev
    ⟨true, none, true⟩ (by decide)

set_option maxRecDepth 4000 in
/-- C5 counterexample: against a control channel that never answers,
waitVMM with timeout 5 returns the timeout error only after 6000 ms of
elapsed time (601 polls) in the idealized timing model — more than the
claimed bound of 5 s plus one 10 ms poll interval.  The truncating
conversion of the elapsed seconds to int makes the strict comparison
against the timeout first succeed at 6 s. -/
theorem waitVMM_timeout5_counterexample :
    waitVMM (fun _ => false) 5 =
      some ⟨Except.error (FcErr.timeoutErr 5), 6000, 601⟩
    ∧ ¬(6000 ≤ 5000 + 10) :=
  ⟨by decide, by decide⟩

set_option maxRecDepth 4000 in
/-- C5 amended: waitVMM with timeout 5 against a never-answering channel
returns the timeout error with elapsed time 6000 ms — at least 6 s and
within one poll interval of 6 s — after 601 polls, and a negative timeout
yields the invalid-timeout configuration error with no poll at all. -/
theorem waitVMM_timeout5_truncation_spec :
    waitVMM (fun _ => false) 5 =
      some ⟨Except.error (FcErr.timeoutErr 5), 6000, 601⟩
    ∧ (∀ describeOk : Nat → Bool,
        waitVMM describeOk (-1) =
          some ⟨Except.error (FcErr.invalidTimeout (-1)), 0, 0⟩) :=
  ⟨by decide, fun _ => rfl⟩

/-- C1: evaluation of startSandbox at the failing executions.  First, the
execution where the set-boot-source, rootfs-declaration and disk-pool
steps all fail while every checked step succeeds: the sequence is not
aborted, every remaining step still runs and the call returns success,
because fc.go discards the results of fcSetBootSource, fcSetVMRootfs and
createDiskPool — their outcomes provably never influence the result.
Second, the execution where step 1 (fcInit) fails: the error propagates
but the fcEnd cleanup does not run, since the deferred cleanup is
registered only after the fcInit check. -/
theorem startSandbox_ignored_errors_eval :
    startSandbox ⟨true, true, true, false, Except.ok "/initrd", true, false,
        false, [], true, true⟩ =
      ⟨Except.ok (), false,
        [Step.fcInitStep, Step.setVMBaseConfig, Step.kernelAssetPath,
         Step.setBootSource, Step.initrdAssetPath, Step.setVMRootfs,
         Step.createDiskPoolStep, Step.startVM, Step.finalWait]⟩
    ∧ startSandbox ⟨false, true, true, true, Except.ok "/initrd", true, true,
        true, [], true, true⟩ =
      ⟨Except.error StartErr.initErr, false, [Step.fcInitStep]⟩
    ∧ (∀ (env : StartEnv) (b₁ b₂ b₃ : Bool),
        startSandbox
          { env with bootSourceOk := b₁, rootfsOk := b₂, diskPoolOk := b₃ } =
          startSandbox env) := by
  refine ⟨rfl, rfl, ?_⟩
  intro env b₁ b₂ b₃
  cases env
  rfl

/-- If every liveness probe of the fcEnd wait loop finds the process
alive, the loop runs its 301 iterations (j = 0..300, one probe each) and
ends by sending SIGKILL, the result being exactly the kill-send result. -/
theorem fcEndLoop_all_alive (alive : Nat → Bool) (killOk : Bool) :
    ∀ (fuel j : Nat), (∀ i, i ≤ 300 → alive (i + 1) = true) → j ≤ 300 →
      301 - j < fuel →
      fcEndLoop alive killOk j fuel =
        some ((if killOk then Except.ok () else Except.error FcErr.killErr),
          List.replicate (301 - j) SigEvent.probe ++ [SigEvent.sigkill]) := by
  intro fuel
  induction fuel with
  | zero => intro j h hj hf; omega
  | succ f ih =>
    intro j h hj hf
    have ha : alive (j + 1) = true := h j hj
    by_cases hj3 : j = 300
    · subst hj3
      simp [fcEndLoop, ha, fcStopSandboxTimeout]
    · have hlt : j < 300 := lt_of_le_of_ne hj hj3
      have hcond : ¬(1000 * fcStopSandboxTimeout ≤ 50 * j) := by
        simp only [fcStopSandboxTimeout]
        omega
      have hrec := ih (j + 1) h (by omega) (by omega)
      simp only [fcEndLoop, ha, hcond, if_false, if_neg, reduceIte, hrec]
      have h301 : 301 - j = (300 - j) + 1 := by omega
      have h300 : 301 - (j + 1) = 300 - j := by omega
      rw [h300, h301, List.replicate_succ]
      simp

/-- If a probe of the fcEnd wait loop at index k (within the grace
period) finds the process dead while all earlier probes found it alive,
the loop returns success right there, after k+1 probes and without
sending SIGKILL. -/
theorem fcEndLoop_death_observed (alive : Nat → Bool) (killOk : Bool) :
    ∀ (fuel j k : Nat), j ≤ k → k ≤ 300 → alive (k + 1) = false →
      (∀ i, j ≤ i → i < k → alive (i + 1) = true) → k - j < fuel →
      fcEndLoop alive killOk j fuel =
        some (Except.ok (), List.replicate (k - j + 1) SigEvent.probe) := by
  intro fuel
  induction fuel with
  | zero => intro j k hjk hk hd hl hf; omega
  | succ f ih =>
    intro j k hjk hk hd hl hf
    by_cases hjk2 : j = k
    · subst hjk2
      simp [fcEndLoop, hd]
    · have hjlt : j < k := lt_of_le_of_ne hjk hjk2
      have ha : alive (j + 1) = true := hl j le_rfl hjlt
      have hcond : ¬(1000 * fcStopSandboxTimeout ≤ 50 * j) := by
        simp only [fcStopSandboxTimeout]
        omega
      have hrec := ih (j + 1) k hjlt hk hd
        (fun i h1 h2 => hl i (by omega) h2) (by omega)
      simp only [fcEndLoop, ha, hcond, if_false, if_neg, reduceIte, hrec]
      have hkj : k - j + 1 = (k - (j + 1) + 1) + 1 := by omega
      rw [hkj, List.replicate_succ]
      simp [List.replicate_succ]

/-- C4 counterexample: fcEnd on a process that is alive at the initial
probe but dead at the first poll of the wait loop returns success after
probe, SIGTERM, probe — no SIGKILL is ever sent, refuting the claim that
a forced-kill signal is sent unconditionally at the end. -/
theorem fcEnd_death_observed_counterexample :
    fcEnd (fun k => decide (k = 0)) true true =
      some (Except.ok (),
        [SigEvent.probe, SigEvent.sigterm, SigEvent.probe])
    ∧ SigEvent.sigkill ∉
        [SigEvent.probe, SigEvent.sigterm, SigEvent.probe] :=
  ⟨rfl, by decide⟩

/-- C4 amended: fcEnd on a live process sends SIGTERM and polls liveness
every 50 ms up to the 15 s grace period; if death is observed during the
poll the call returns success immediately and no forced-kill signal is
sent; only when the grace period expires without observed death is SIGKILL
sent, and then the result of the call reflects only the kill send. -/
theorem fcEnd_kill_only_on_grace_expiry :
    ∀ (alive : Nat → Bool) (termOk killOk : Bool),
      alive 0 = true → termOk = true →
      ((∀ i, i ≤ 300 → alive (i + 1) = true) →
        fcEnd alive termOk killOk =
          some ((if killOk then Except.ok () else Except.error FcErr.killErr),
            SigEvent.probe :: SigEvent.sigterm ::
              (List.replicate 301 SigEvent.probe ++ [SigEvent.sigkill])))
      ∧ (∀ k, k ≤ 300 → alive (k + 1) = false →
          (∀ i, i < k → alive (i + 1) = true) →
          fcEnd alive termOk killOk =
            some (Except.ok (),
              SigEvent.probe :: SigEvent.sigterm ::
                List.replicate (k + 1) SigEvent.probe)
          ∧ SigEvent.sigkill ∉
              (SigEvent.probe :: SigEvent.sigterm ::
                List.replicate (k + 1) SigEvent.probe)) := by
  intro alive termOk killOk h0 ht
  constructor
  · intro hall
    have hloop := fcEndLoop_all_alive alive killOk 302 0 hall (by omega)
      (by omega)
    rw [Nat.sub_zero] at hloop
    simp only [fcEnd, h0, ht, hloop]
    rfl
  · intro k hk hd hl
    constructor
    · have hloop := fcEndLoop_death_observed alive killOk 302 0 k
        (Nat.zero_le k) hk hd (fun i _ h2 => hl i h2) (by omega)
      rw [Nat.sub_zero] at hloop
      simp only [fcEnd, h0, ht, hloop]
      rfl
    · simp [List.mem_replicate]

/-- Witness for fcEnd_kill_only_on_grace_expiry at the concrete schedule
in which the process never dies: the grace period expires and SIGKILL is
sent after the 301 loop probes. -/
theorem fcEnd_kill_only_on_grace_expiry_witness :
    fcEnd (fun _ => true) true true =
      some (Except.ok (),
        SigEvent.probe :: SigEvent.sigterm ::
          (List.replicate 301 SigEvent.probe ++ [SigEvent.sigkill])) := by
  have h := (fcEnd_kill_only_on_grace_expiry (fun _ => true) true true rfl
    rfl).1 (fun i _ => rfl)
  simpa only [reduceIte] using h

/-- addDevice with readiness apiReady and a succeeding channel dispatches
the descriptor, leaving the state unchanged. -/
theorem addDevice_dispatch_ok (st : FcState) (dev : DeviceInfo)
    (dt : deviceType) (h : st.state = vmmState.apiReady) :
    addDevice st dev dt true = (st, dispatchCalls dev, Except.ok ()) := by
  cases dev <;> simp [addDevice, h, dispatchCalls]

/-- Flushing the pending queue at apiReady with an all-succeeding channel
dispatches each queued device exactly once, in original order, the
produced calls being the concatenation of each device's dispatch calls. -/
theorem flushPending_all_ok (chanOk : Nat → Bool) (hok : ∀ j, chanOk j = true) :
    ∀ (devs : List (DeviceInfo × deviceType)) (st : FcState) (i : Nat),
      st.state = vmmState.apiReady →
      flushPending st devs chanOk i =
        (st, devs.flatMap (fun p => dispatchCalls p.1), Except.ok ()) := by
  intro devs
  induction devs with
  | nil => intro st i h; simp [flushPending]
  | cons hd rest ih =>
    intro st i h
    obtain ⟨dev, dt⟩ := hd
    simp [flushPending, hok i, addDevice_dispatch_ok st dev dt h,
      ih st (i + 1) h]

/-- C6: addDevice invoked while the readiness state is notReady appends
the device to the pending queue and returns success with no
control-channel call; a nonempty list of dispatched calls implies the
readiness state was not notReady; and flushing the queue at apiReady
dispatches the queued devices exactly once, in original FIFO insertion
order. -/
theorem addDevice_queue_and_fifo_flush :
    (∀ (st : FcState) (dev : DeviceInfo) (dt : deviceType) (chanOk : Bool),
      st.state = vmmState.notReady →
        addDevice st dev dt chanOk =
          ({ st with pendingDevices := st.pendingDevices ++ [(dev, dt)] },
            [], Except.ok ()))
    ∧ (∀ (st : FcState) (dev : DeviceInfo) (dt : deviceType) (chanOk : Bool),
        (addDevice st dev dt chanOk).2.1 ≠ [] →
          st.state ≠ vmmState.notReady)
    ∧ (∀ (st : FcState) (devs : List (DeviceInfo × deviceType))
        (chanOk : Nat → Bool) (i : Nat),
        st.state = vmmState.apiReady → (∀ j, chanOk j = true) →
          flushPending st devs chanOk i =
            (st, devs.flatMap (fun p => dispatchCalls p.1),
              Except.ok ())) := by
  refine ⟨?_, ?_, ?_⟩
  · intro st dev dt c h
    simp [addDevice, h]
  · intro st dev dt c hne h
    apply hne
    simp [addDevice, h]
  · intro st devs chanOk i h hok
    exact flushPending_all_ok chanOk hok devs st i h

/-- Witness for addDevice_queue_and_fifo_flush: a device queued while
notReady with no channel call, and a two-device queue flushed at apiReady
in FIFO order. -/
theorem addDevice_queue_and_fifo_flush_witness :
    addDevice ⟨vmmState.notReady, []⟩ (DeviceInfo.vsock 3)
      deviceType.vsockDev true =
      (⟨vmmState.notReady, [(DeviceInfo.vsock 3, deviceType.vsockDev)]⟩,
        [], Except.ok ())
    ∧ flushPending ⟨vmmState.apiReady, []⟩
        [(DeviceInfo.vsock 3, deviceType.vsockDev),
         (DeviceInfo.blockDrive ⟨"d1", "/f1", 0⟩, deviceType.blockDev)]
        (fun _ => true) 0 =
        (⟨vmmState.apiReady, []⟩,
          [ChanCall.putGuestVsockByID "root" 3,
           ChanCall.putGuestDriveByID "d1" false false "/f1"],
          Except.ok ()) := by
  constructor
  · have h := addDevice_queue_and_fifo_flush.1 ⟨vmmState.notReady, []⟩
      (DeviceInfo.vsock 3) deviceType.vsockDev true rfl
    simpa using h
  · have h := addDevice_queue_and_fifo_flush.2.2 ⟨vmmState.apiReady, []⟩
      [(DeviceInfo.vsock 3, deviceType.vsockDev),
       (DeviceInfo.blockDrive ⟨"d1", "/f1", 0⟩, deviceType.blockDev)]
      (fun _ => true) 0 rfl (fun _ => rfl)
    simpa [dispatchCalls] using h

/-- C7: every hotplug update of a BlockDrive first patches the
preallocated slot drive_<Index> with the drive's backing file, and a
BlockDeviceRescan action carrying that slot id is issued if and only if
the instance was observed (by the DescribeInstance call inside vmRunning)
in the Running state — never in any other state nor when the observation
fails or does not happen. -/
theorem fcUpdateBlockDrive_patch_and_rescan_iff_running :
    ∀ (d : BlockDrive) (env : UpdateEnv),
      (fcUpdateBlockDrive d env).calls.head? =
        some (ChanCall.patchGuestDriveByID (fcDriveIndexToID d.Index) d.File)
      ∧ (ChanCall.createSyncAction "BlockDeviceRescan" (fcDriveIndexToID d.Index)
          ∈ (fcUpdateBlockDrive d env).calls
        ↔ ChanCall.describeInstance ∈ (fcUpdateBlockDrive d env).calls
          ∧ env.observed = some InstanceState.running) := by
  intro d env
  obtain ⟨p, obs, r⟩ := env
  rcases obs with _ | s
  · cases p <;> cases r <;> constructor <;>
      simp [fcUpdateBlockDrive, vmRunning]
  · cases s <;> cases p <;> cases r <;> constructor <;>
      simp [fcUpdateBlockDrive, vmRunning]

/-- With an all-succeeding environment, the createDiskPool loop starting
at index i declares one drive per remaining index, each backed by the
allocation of its own index. -/
theorem createDiskPoolLoop_all_ok (env : DiskPoolEnv) (p : Nat → String)
    (hraw : ∀ i, env.rawResults i = Except.ok (p i))
    (hput : ∀ i, env.putDriveOk i = true) :
    ∀ (n i : Nat),
      createDiskPoolLoop env i n =
        ((List.range n).map (fun k : Nat =>
          ChanCall.putGuestDriveByID (fcDriveIndexToID ((i + k : Nat) : Int))
            false false (p (i + k))), Except.ok ()) := by
  intro n
  induction n with
  | zero => intro i; simp [createDiskPoolLoop]
  | succ m ih =>
    intro i
    simp only [createDiskPoolLoop, hraw i, hput i, if_true, reduceIte]
    rw [ih (i + 1)]
    rw [List.range_succ_eq_map]
    simp only [List.map_cons, List.map_map, Function.comp, Nat.add_zero]
    have harith :
        (fun k : Nat => ChanCall.putGuestDriveByID
          (fcDriveIndexToID (((i + 1) + k : Nat) : Int)) false false
          (p ((i + 1) + k))) =
        (fun k : Nat => ChanCall.putGuestDriveByID
          (fcDriveIndexToID ((i + (k + 1) : Nat) : Int)) false false
          (p (i + (k + 1)))) := by
      funext k
      have hk : (i + 1) + k = i + (k + 1) := by omega
      rw [hk]
    rw [harith]
    have hmap :
        (fun k : Nat => ChanCall.putGuestDriveByID
          (fcDriveIndexToID ((i + (k + 1) : Nat) : Int)) false false
          (p (i + (k + 1)))) =
        ((fun k : Nat => ChanCall.putGuestDriveByID
          (fcDriveIndexToID ((i + k : Nat) : Int)) false false
          (p (i + k))) ∘ Nat.succ) := by
      funext k
      rfl
    rw [hmap]

/-- No startVM step occurs among the flushDevice steps produced by the
pending-queue flush. -/
theorem startVM_not_mem_flushSteps : ∀ (oks : List Bool) (i : Nat),
    Step.startVM ∉ (flushSteps i oks).1 := by
  intro oks
  induction oks with
  | nil => intro i; simp [flushSteps]
  | cons b rest ih =>
    intro i
    cases b
    · simp [flushSteps]
    · intro hmem
      simp only [flushSteps] at hmem
      rcases List.mem_cons.mp hmem with h1 | h2
      · exact Step.noConfusion h1
      · exact ih (i + 1) h2

/-- In the tail of startSandbox, whenever the start action step occurs it
occurs strictly after the disk-pool preallocation step. -/
theorem startSandboxTail_diskpool_before_startVM (steps₂ : List Step)
    (env : StartEnv) (h2 : Step.startVM ∉ steps₂) :
    Step.startVM ∈ (startSandboxTail steps₂ env).steps →
    ∃ l₁ l₂, (startSandboxTail steps₂ env).steps =
      l₁ ++ Step.createDiskPoolStep :: l₂
      ∧ Step.startVM ∉ l₁ ∧ Step.startVM ∈ l₂ := by
  have hnf := startVM_not_mem_flushSteps env.deviceOks 0
  unfold startSandboxTail
  rcases hsplit : flushSteps 0 env.deviceOks with ⟨fsteps, failIdx⟩
  rw [hsplit] at hnf
  simp only at hnf
  rcases failIdx with _ | i
  · simp only
    by_cases hsv : env.startVMOk = false
    · rw [if_pos hsv]
      intro _
      refine ⟨steps₂ ++ [Step.setVMRootfs], fsteps ++ [Step.startVM],
        ?_, ?_, ?_⟩
      · simp
      · simp only [List.mem_append, List.mem_singleton]
        rintro (h | h)
        · exact h2 h
        · exact Step.noConfusion h
      · simp
    · rw [if_neg hsv]
      by_cases hfw : env.finalWaitOk = false
      · rw [if_pos hfw]
        intro _
        refine ⟨steps₂ ++ [Step.setVMRootfs],
          fsteps ++ [Step.startVM, Step.finalWait], ?_, ?_, ?_⟩
        · simp
        · simp only [List.mem_append, List.mem_singleton]
          rintro (h | h)
          · exact h2 h
          · exact Step.noConfusion h
        · simp
      · rw [if_neg hfw]
        intro _
        refine ⟨steps₂ ++ [Step.setVMRootfs],
          fsteps ++ [Step.startVM, Step.finalWait], ?_, ?_, ?_⟩
        · simp
        · simp only [List.mem_append, List.mem_singleton]
          rintro (h | h)
          · exact h2 h
          · exact Step.noConfusion h
        · simp
  · simp only
    intro hmem
    simp [h2, hnf] at hmem

/-- C9: with every scratch allocation and drive put succeeding,
createDiskPool declares exactly fcDiskPoolSize = 8 placeholder drives,
the k-th named drive_<k> and backed by the k-th fresh allocation, each
writable (not read-only) and non-root; the eight slot ids are pairwise
distinct; and in every startSandbox execution the start action step only
ever occurs after the disk-pool preallocation step. -/
theorem createDiskPool_eight_fresh_drives :
    (∀ (env : DiskPoolEnv) (p : Nat → String),
      (∀ i, env.rawResults i = Except.ok (p i)) →
      (∀ i, env.putDriveOk i = true) →
        createDiskPool env =
          ((List.range fcDiskPoolSize).map (fun k : Nat =>
            ChanCall.putGuestDriveByID (fcDriveIndexToID (k : Int)) false
              false (p k)), Except.ok ()))
    ∧ ((List.range fcDiskPoolSize).map
        (fun k : Nat => fcDriveIndexToID (k : Int))).Nodup
    ∧ (∀ senv : StartEnv, Step.startVM ∈ (startSandbox senv).steps →
        ∃ l₁ l₂, (startSandbox senv).steps =
          l₁ ++ Step.createDiskPoolStep :: l₂
          ∧ Step.startVM ∉ l₁ ∧ Step.startVM ∈ l₂) := by
  refine ⟨?_, ?_, ?_⟩
  · intro env p hraw hput
    have h := createDiskPoolLoop_all_ok env p hraw hput fcDiskPoolSize 0
    simpa [createDiskPool] using h
  · decide
  · intro senv
    simp only [startSandbox]
    split
    · intro h; simp at h
    · split
      · intro h; simp at h
      · split
        · intro h; simp at h
        · split
          · intro h; simp at h
          · split
            · split
              · intro h; simp at h
              · exact startSandboxTail_diskpool_before_startVM _ senv
                  (by decide)
            · exact startSandboxTail_diskpool_before_startVM _ senv
                (by decide)

/-- Witness for createDiskPool_eight_fresh_drives at the concrete
allocator producing scratch_<i>: the eight declared drives, in pool
order. -/
theorem createDiskPool_eight_fresh_drives_witness :
    createDiskPool ⟨fun i => Except.ok ("scratch_" ++ toString i),
        fun _ => true⟩ =
      ([ChanCall.putGuestDriveByID "drive_0" false false "scratch_0",
        ChanCall.putGuestDriveByID "drive_1" false false "scratch_1",
        ChanCall.putGuestDriveByID "drive_2" false false "scratch_2",
        ChanCall.putGuestDriveByID "drive_3" false false "scratch_3",
        ChanCall.putGuestDriveByID "drive_4" false false "scratch_4",
        ChanCall.putGuestDriveByID "drive_5" false false "scratch_5",
        ChanCall.putGuestDriveByID "drive_6" false false "scratch_6",
        ChanCall.putGuestDriveByID "drive_7" false false "scratch_7"],
       Except.ok ()) := by
  have h := createDiskPool_eight_fresh_drives.1
    ⟨fun i => Except.ok ("scratch_" ++ toString i), fun _ => true⟩
    (fun i => "scratch_" ++ toString i) (fun _ => rfl) (fun _ => rfl)
  rw [h]
  rfl

end virtcontainers
